import Mathlib

/-!
Shallow embedding of the feishu-bot customer-intake system
(`feishu_bot.py` and `main.py`).

Pure logic (field extraction, dict shaping, branch structure of the
webhook / message handlers) is translated directly; remote API calls are
modelled by outcome parameters supplied in an environment, and side
effects (outbound messages, record creation) are collected in an explicit
effect trace.  Python `None` is `Option.none`; Python string truthiness
(`if s:`) is `s ≠ ""` on strings and `some s` with `s ≠ ""` on optional
strings.
-/

set_option maxRecDepth 10000

/-- First value bound to key `k` in an association list (Python dict lookup /
`dict.get`). -/
def lookup {α : Type} (l : List (String × α)) (k : String) : Option α :=
  match l with
  | [] => none
  | (k', v) :: rest => if k' == k then some v else lookup rest k

/-- Python truthiness of an optional string: `None` and `""` are falsy. -/
def truthyV (v : Option String) : Bool :=
  match v with
  | none => false
  | some s => s ≠ ""

/-- Python `\s` / `str.isspace` character class (the Unicode whitespace set
used by `re` on `str` patterns and by `str.strip`). -/
def pySpace (c : Char) : Bool :=
  c == '\t' || c == '\n' || c == '\x0b' || c == '\x0c' || c == '\r' ||
  c == '\x1c' || c == '\x1d' || c == '\x1e' || c == '\x1f' || c == ' ' ||
  c == '\x85' || c == '\xa0' || c == '\u1680' ||
  ('\u2000' ≤ c && c ≤ '\u200a') ||
  c == '\u2028' || c == '\u2029' || c == '\u202f' || c == '\u205f' || c == '\u3000'

/-- `str.strip()` on a character list. -/
def pyStripL (l : List Char) : List Char :=
  ((l.dropWhile pySpace).reverse.dropWhile pySpace).reverse

/-- Python `str.strip()`. -/
def pyStrip (s : String) : String :=
  String.mk (pyStripL s.data)

/-- `startsWithL p t` holds when `t` begins with `p`. -/
def startsWithL (p t : List Char) : Bool :=
  match p, t with
  | [], _ => true
  | _ :: _, [] => false
  | c :: ps, d :: ts => c == d && startsWithL ps ts

/-- Python substring membership `p in t` on character lists. -/
def containsL (p t : List Char) : Bool :=
  match t with
  | [] => startsWithL p []
  | _ :: ts => startsWithL p t || containsL p ts

/-- Python substring membership `p in t` on strings. -/
def strContains (t p : String) : Bool :=
  containsL p.data t.data

/-- If `t` begins with `p`, the remainder of `t` after `p`. -/
def chopPre (p t : List Char) : Option (List Char) :=
  match p, t with
  | [], _ => some t
  | _ :: _, [] => none
  | c :: ps, d :: ts => if c == d then chopPre ps ts else none

/-- Tail of the pattern `label[:：]\s*(.+)` after the colon: greedy `\s*`
followed by a greedy `(.+)` (at least one non-newline character), with the
backtracking the regex engine performs when the remaining text is all
whitespace.  Returns the captured group. -/
def matchTail (rest : List Char) : Option (List Char) :=
  let afterWs := rest.dropWhile pySpace
  match afterWs with
  | _ :: _ => some (afterWs.takeWhile (fun c => c ≠ '\n'))
  | [] =>
    match rest.reverse.dropWhile (fun c => c == '\n') with
    | [] => none
    | c :: _ => some [c]

/-- Attempt to match `label[:：]\s*(.+)` at the start of `text`. -/
def tryAt (label text : List Char) : Option (List Char) :=
  match chopPre label text with
  | none => none
  | some after =>
    match after with
    | [] => none
    | c :: rest => if c == ':' || c == '：' then matchTail rest else none

/-- `re.search` for the pattern `label[:：]\s*(.+)`: the leftmost position
where the whole pattern matches, returning the captured group. -/
def scanFor (label text : List Char) : Option (List Char) :=
  match text with
  | [] => tryAt label []
  | _ :: rest =>
    match tryAt label text with
    | some cap => some cap
    | none => scanFor label rest

/-- `re.search(label + "[:：]\\s*(.+)", text)` followed by `.group(1)`. -/
def reSearchLabel (label text : String) : Option String :=
  (scanFor label.data text.data).map String.mk

/-- `parse_customer_info` (feishu_bot.py): for each of the four labels in
the order of the `patterns` dict, search for `label[:：]\s*(.+)` and keep
the stripped capture; the result mirrors the Python dict's insertion
order. -/
def parse_customer_info (text : String) : List (String × String) :=
  (["渠道", "来源", "电话", "微信"].filterMap fun f =>
    (reSearchLabel f text).map fun v => (f, pyStrip v))

example : parse_customer_info "电话：138" = [("电话", "138")] := by decide
example : parse_customer_info "hello" = [] := by decide
example : parse_customer_info "渠道：抖音" = [("渠道", "抖音")] := by decide
example : parse_customer_info "电话： 138  \n微信：ab" =
    [("电话", "138"), ("微信", "ab")] := by decide
example : parse_customer_info "电话：\n139" = [("电话", "139")] := by decide

/-! ### Session store (redis-backed user state) -/

/-- The JSON object stored per user by `set_user_state`. -/
structure Session where
  chat_id : String
  step : String
  created_at : String
deriving Repr, DecidableEq

/-- The redis database: per-user session entries (stored with their
`setex` TTL) under keys `user_state:{user_id}`, and the cached target
table id (with its TTL) under key `target_table_id`.  The two key
families are disjoint, so they are modelled as separate components. -/
structure Redis where
  sessions : List (String × (Session × Nat))
  tableCache : Option (String × Nat)
deriving Repr, DecidableEq

/-- `redis_client`: `none` when the connection failed at startup. -/
abbrev RedisState : Type := Option Redis

/-- The `user_state:{user_id}` key for a (possibly absent) sender id;
`f"user_state:{None}"` renders Python `None` as the text `None`. -/
def uidKey (user_id : Option String) : String :=
  match user_id with
  | some u => u
  | none => "None"

/-- `get_user_state` (feishu_bot.py): with no redis client every lookup
is `None`; otherwise the stored session JSON is returned. -/
def get_user_state (r : RedisState) (user_id : Option String) : Option Session :=
  match r with
  | none => none
  | some rd => (lookup rd.sessions (uidKey user_id)).map Prod.fst

/-- `set_user_state` (feishu_bot.py): `setex` with the given TTL; a no-op
when the redis client is absent. -/
def set_user_state (r : RedisState) (user_id : Option String) (state : Session)
    (ttl : Nat) : RedisState :=
  match r with
  | none => none
  | some rd =>
    some { rd with
      sessions := (uidKey user_id, (state, ttl)) ::
        rd.sessions.filter (fun p => p.1 ≠ uidKey user_id) }

/-- `delete_user_state` (feishu_bot.py): a no-op when the redis client is
absent. -/
def delete_user_state (r : RedisState) (user_id : Option String) : RedisState :=
  match r with
  | none => none
  | some rd =>
    some { rd with sessions := rd.sessions.filter (fun p => p.1 ≠ uidKey user_id) }

/-! ### Table location (feishu_bot.py) -/

/-- A parsed `BASE_URL`: the path split into segments (Python
`path.strip('/').split('/')`) and the query given as ordered key/value
pairs (for `parse_qs`, only the first value of a key is ever read). -/
structure Url where
  pathSegs : List String
  query : List (String × String)
deriving Repr, DecidableEq

/-- Result of `parse_base_url` (feishu_bot.py). -/
structure UrlParams where
  app_token : String
  table_id : Option String
  view_id : Option String
deriving Repr, DecidableEq

/-- `parse_base_url` (feishu_bot.py): trailing path segment as app token,
`table`/`view` query parameters as ids. -/
def fb_parse_base_url (u : Url) : UrlParams :=
  { app_token := (u.pathSegs.getLast?).getD ""
    table_id := lookup u.query "table"
    view_id := lookup u.query "view" }

/-- Outcome of the `app_table.list` SDK call: transport exception,
non-success response, or a list of `(name, table_id)` rows. -/
inductive ListTablesOutcome where
  | raisen : ListTablesOutcome
  | failure : ListTablesOutcome
  | ok : List (String × String) → ListTablesOutcome
deriving Repr, DecidableEq

/-- Store the freshly resolved table id in the cache (`setex` 3600s). -/
def cacheTableId (r : RedisState) (tid : String) : RedisState :=
  match r with
  | none => none
  | some rd => some { rd with tableCache := some (tid, 3600) }

/-- The uncached body of `get_target_table_id`: list the tables, select
the first whose name equals the target, cache and return its id; any
failure is logged and re-raised (modelled as `Except.error`). -/
def get_target_table_id_go (r : RedisState) (target : String)
    (out : ListTablesOutcome) : Except String String × RedisState :=
  match out with
  | .raisen => (Except.error "获取表格列表失败", r)
  | .failure => (Except.error "获取表格列表失败", r)
  | .ok tables =>
    match tables.find? (fun t => t.1 == target) with
    | some t => (Except.ok t.2, cacheTableId r t.2)
    | none => (Except.error ("未找到目标表: " ++ target), r)

/-- `get_target_table_id` (feishu_bot.py): consult the redis cache first
(a cached empty string is falsy and ignored), otherwise resolve via the
table list and cache the result. -/
def get_target_table_id (r : RedisState) (target : String)
    (out : ListTablesOutcome) : Except String String × RedisState :=
  match r with
  | some rd =>
    match rd.tableCache with
    | some c => if c.1 ≠ "" then (Except.ok c.1, r) else get_target_table_id_go r target out
    | none => get_target_table_id_go r target out
  | none => get_target_table_id_go r target out

/-! ### Duplicate checker (feishu_bot.py) -/

/-- Outcome of the `app_table_record.search` SDK call: transport
exception, non-success response, or the matched records' ids. -/
inductive SearchOutcome where
  | raisen : SearchOutcome
  | failure : SearchOutcome
  | ok : List String → SearchOutcome
deriving Repr, DecidableEq

/-- `check_duplicate_record` (feishu_bot.py).  The first component is the
returned `(is_duplicate, record_id)` pair; the second reports whether a
remote search request was issued at all (no conditions → no request).
Python truthiness: a `None` or empty phone/wechat contributes no filter
condition. -/
def check_duplicate_record (phone wechat : Option String)
    (out : SearchOutcome) : (Bool × Option String) × Bool :=
  if !truthyV phone && !truthyV wechat then ((false, none), false)
  else
    match out with
    | .raisen => ((false, none), true)
    | .failure => ((false, none), true)
    | .ok items =>
      match items with
      | [] => ((false, none), true)
      | rid :: _ => ((true, some rid), true)

/-! ### Record writer (feishu_bot.py) -/

/-- One option of a single-select field, as the dicts produced by
`get_table_fields` expose it (`option.get("name")` / `option.get("id")`
may be absent). -/
structure SelectOption where
  oname : Option String
  oid : Option String
deriving Repr, DecidableEq

/-- One field of the fetched schema: name, numeric type tag (3 =
single-select), and the `property.options` list. -/
structure TableField where
  field_name : String
  ftype : Nat
  options : List SelectOption
deriving Repr, DecidableEq

/-- `get_single_select_option_id` (feishu_bot.py): scan the schema for
fields with the given name and type 3; inside such a field, the first
option whose `name` equals `option_text` ends the search with that
option's `id` (possibly `None`); a name-and-type match without a matching
option falls through to later fields. -/
def get_single_select_option_id (fields : List TableField)
    (field_name : String) (option_text : Option String) : Option String :=
  match fields with
  | [] => none
  | f :: rest =>
    if f.field_name == field_name && f.ftype == 3 then
      match f.options.find? (fun o => o.oname == option_text) with
      | some o => o.oid
      | none => get_single_select_option_id rest field_name option_text
    else get_single_select_option_id rest field_name option_text

/-- The entry the enumerated-field loop of `create_customer_record`
contributes for field `fn`: absent when `fields_data` lacks the key,
otherwise the looked-up option id when that id is truthy and the raw
supplied text when it is not. -/
def enumFieldEntry (table_fields : List TableField)
    (fields_data : List (String × Option String)) (fn : String) :
    Option (String × Option String) :=
  match lookup fields_data fn with
  | some option_text =>
    match get_single_select_option_id table_fields fn option_text with
    | some oid =>
      if oid ≠ "" then some (fn, (some oid : Option String))
      else some (fn, option_text)
    | none => some (fn, option_text)
  | none => none

/-- The pass-through loop of `create_customer_record`: every entry of
`fields_data` other than the two enumerated fields whose value is truthy,
in order. -/
def otherFields (fields_data : List (String × Option String)) :
    List (String × Option String) :=
  fields_data.filterMap (fun p =>
    if p.1 ≠ "渠道" && p.1 ≠ "来源" && truthyV p.2 then some p else none)

/-- The `fields` dict assembled by `create_customer_record`, in Python
insertion order: the enumerated fields 渠道/来源 first (option id when the
looked-up id is truthy, raw text otherwise), then every other truthy
entry of `fields_data`, then a defaulted 录入日期 when that key is still
absent. -/
def build_fields (table_fields : List TableField)
    (fields_data : List (String × Option String)) (today : String) :
    List (String × Option String) :=
  let base := (enumFieldEntry table_fields fields_data "渠道").toList ++
    (enumFieldEntry table_fields fields_data "来源").toList ++
    otherFields fields_data
  if (lookup base "录入日期").isSome then base
  else base ++ [("录入日期", some today)]

/-- Outcome of the `app_table_record.create` SDK call. -/
inductive CreateOutcome where
  | raisen : CreateOutcome
  | failure : CreateOutcome
  | ok : CreateOutcome
deriving Repr, DecidableEq

/-- `create_customer_record` (feishu_bot.py): fetch the schema (its
result, `[]` on any fetch failure, is the `table_fields` argument),
assemble the `fields` dict, and issue the create call; the boolean is the
function's success flag and the list is the field payload of the issued
request. -/
def create_customer_record (table_fields : List TableField)
    (fields_data : List (String × Option String)) (today : String)
    (out : CreateOutcome) : Bool × List (String × Option String) :=
  let fields := build_fields table_fields fields_data today
  (match out with
   | .ok => true
   | .raisen => false
   | .failure => false,
   fields)

/-! ### Message handling (feishu_bot.py) -/

/-- Observable side effects of handling one event: outbound chat messages
(`send_message`) and invocations of the record writer with its assembled
payload. -/
inductive Effect where
  | sendMsg : String → String → Effect
  | createRecord : List (String × Option String) → Effect
deriving Repr, DecidableEq

/-- JSON bodies of the handler's Flask responses. -/
inductive RBody where
  | msg : String → RBody
  | err : String → RBody
  | challenge : Option String → RBody
deriving Repr, DecidableEq

/-- Remote-world parameters of one event-handling run: the redis state,
the configured target table name, and the outcomes of the SDK calls the
run may perform, plus the two `datetime.now()` renderings. -/
structure Env where
  redis : RedisState
  targetTable : String
  listTables : ListTablesOutcome
  search : SearchOutcome
  tableFields : List TableField
  create : CreateOutcome
  nowIso : String
  today : String

/-- Result of `handle_message_event`: HTTP response, ordered effect
trace, and the redis state afterwards. -/
structure HResult where
  resp : Nat × RBody
  effects : List Effect
  redis : RedisState
deriving Repr, DecidableEq

/-- The instruction template sent on a group trigger. -/
def instructionTemplate : String :=
  "请按以下模板提供信息：\n渠道：\n来源：\n电话：\n微信：\n（可直接发送图片，将自动作为初次聊天记录附件）"

/-- `handle_message_event` (feishu_bot.py), for a message event with the
given chat type, chat id, raw text content and sender user id.  Branches
mirror the source: group trigger → template + new session (TTL 300);
p2p with an `AWAITING_INFO` session → extract, validate, dedupe, create;
everything else falls through to the neutral 200. -/
def handle_message_event (env : Env) (chat_type chat_id rawText : String)
    (user_id : Option String) : HResult :=
  let text := pyStrip rawText
  if chat_type == "group" && strContains text "@_user_1" then
    { resp := (200, RBody.msg "Message processed")
      effects := [Effect.sendMsg chat_id instructionTemplate]
      redis := set_user_state env.redis user_id
        { chat_id := chat_id, step := "waiting_info", created_at := env.nowIso } 300 }
  else if chat_type == "p2p" then
    match get_user_state env.redis user_id with
    | some st =>
      if st.step == "waiting_info" then
        let customer_info := parse_customer_info text
        if customer_info ≠ [] then
          let phone := lookup customer_info "电话"
          let wechat := lookup customer_info "微信"
          if !truthyV phone && !truthyV wechat then
            { resp := (200, RBody.msg "Validation failed")
              effects := [Effect.sendMsg st.chat_id "电话和微信至少需要填写一个"]
              redis := env.redis }
          else
            match get_target_table_id env.redis env.targetTable env.listTables with
            | (Except.error e, r') =>
              { resp := (500, RBody.err e), effects := [], redis := r' }
            | (Except.ok _tid, r') =>
              match check_duplicate_record phone wechat env.search with
              | ((true, dupId), _) =>
                { resp := (200, RBody.msg "Duplicate found")
                  effects := [Effect.sendMsg st.chat_id
                    ("数据与客户ID：" ++ (dupId.getD "None") ++ "重复")]
                  redis := delete_user_state r' user_id }
              | ((false, _), _) =>
                let fields_data : List (String × Option String) :=
                  [("渠道", some ((lookup customer_info "渠道").getD "")),
                   ("来源", some ((lookup customer_info "来源").getD "")),
                   ("电话", phone),
                   ("微信", wechat)]
                let cr := create_customer_record env.tableFields fields_data
                  env.today env.create
                { resp := (200, RBody.msg "Message processed")
                  effects := [Effect.createRecord cr.2,
                    Effect.sendMsg st.chat_id
                      (if cr.1 then "客户信息已成功录入！" else "录入失败，请稍后重试")]
                  redis := delete_user_state r' user_id }
        else
          { resp := (200, RBody.msg "Message processed")
            effects := [Effect.sendMsg st.chat_id "格式不正确，请按模板提供信息"]
            redis := env.redis }
      else
        { resp := (200, RBody.msg "Message processed"), effects := [], redis := env.redis }
    | none =>
      { resp := (200, RBody.msg "Message processed"), effects := [], redis := env.redis }
  else
    { resp := (200, RBody.msg "Message processed"), effects := [], redis := env.redis }

/-! ### Webhook endpoint (feishu_bot.py) -/

/-- The fields of the webhook's JSON body that the endpoint reads:
`data.get("type")`, `data.get("challenge")`, and for the event envelope
`event.get("type")` plus the message/sender fields consumed by
`handle_message_event`. -/
structure WebhookBody where
  btype : Option String
  challenge : Option String
  eventType : Option String
  chat_type : String
  chat_id : String
  text : String
  user_id : Option String
deriving Repr, DecidableEq

/-- `webhook` (feishu_bot.py): optional shared-secret check (configured
token truthy and header mismatch → 403), then the URL-verification
handshake, then dispatch of `im.message.receive_v1` events, then the
neutral acknowledgement.  The header value is `None` when absent. -/
def webhook (vtok : String) (headerTok : Option String) (body : WebhookBody)
    (env : Env) : HResult :=
  if vtok ≠ "" && headerTok ≠ some vtok then
    { resp := (403, RBody.err "Invalid token"), effects := [], redis := env.redis }
  else if body.btype == some "url_verification" then
    { resp := (200, RBody.challenge body.challenge), effects := [], redis := env.redis }
  else if body.eventType == some "im.message.receive_v1" then
    handle_message_event env body.chat_type body.chat_id body.text body.user_id
  else
    { resp := (200, RBody.msg "Event received"), effects := [], redis := env.redis }

/-! ### Table locator (main.py) -/

/-- Outcome of one of main.py's remote calls. -/
inductive ApiOutcome (A : Type) where
  | raisen : ApiOutcome A
  | ok : A → ApiOutcome A
deriving Repr, DecidableEq

/-- Python `str.split(sep)` for a one-character separator, on character
lists. -/
def splitOnCharL (sep : Char) (l : List Char) : List (List Char) :=
  match l with
  | [] => [[]]
  | c :: rest =>
    if c == sep then [] :: splitOnCharL sep rest
    else
      match splitOnCharL sep rest with
      | [] => [[c]]
      | g :: gs => (c :: g) :: gs

/-- Python `s.split("/")`. -/
def pySplitSlash (s : String) : List String :=
  (splitOnCharL '/' s.data).map String.mk

/-- A URL as main.py's `parse_base_url` consumes it: the raw `pathname`
(for the `"/wiki/" in pathname` test and the `split("/")` token) and the
query parameters. -/
structure MainUrl where
  pathname : String
  query : List (String × String)
deriving Repr, DecidableEq

/-- A row of `list_bitable_tables`: `table.get("name")` and
`table.get("table_id")`. -/
structure MainTable where
  tname : Option String
  tid : Option String
deriving Repr, DecidableEq

/-- `parse_base_url` (main.py): trailing path token as `app_token`
(substituted by the wiki node's `obj_token` for wiki URLs), `table`/`view`
from the query, and — when `table` is absent — the first listed table
named `⏰客户管理表`; errors raised by the source are `Except.error`. -/
def main_parse_base_url (u : MainUrl)
    (wiki : ApiOutcome (Option String))
    (listOut : ApiOutcome (List MainTable)) : Except String UrlParams :=
  let app_token0 := ((pySplitSlash u.pathname).getLast?).getD ""
  let app_tokenE : Except String String :=
    if strContains u.pathname "/wiki/" then
      match wiki with
      | .raisen => Except.error "failed to get wiki node info"
      | .ok objTok => Except.ok (objTok.getD app_token0)
    else Except.ok app_token0
  match app_tokenE with
  | Except.error e => Except.error e
  | Except.ok app_token =>
    let view_id := lookup u.query "view"
    match lookup u.query "table" with
    | some t => Except.ok { app_token := app_token, table_id := some t, view_id := view_id }
    | none =>
      match listOut with
      | .raisen => Except.error "failed to list bitable tables"
      | .ok tables =>
        match tables.find? (fun t => t.tname == some "⏰客户管理表") with
        | some t =>
          match t.tid with
          | some tid =>
            Except.ok { app_token := app_token, table_id := some tid, view_id := view_id }
          | none =>
            Except.error "无法从BASE_URL解析出table_id"
        | none =>
          Except.error "无法从BASE_URL解析出table_id"

/-! ### General lemmas about the store and helpers -/

theorem lookup_filter_ne {α : Type} (l : List (String × α)) (k : String) :
    lookup (l.filter (fun p => p.1 ≠ k)) k = none := by
  induction l with
  | nil => rfl
  | cons p rest ih =>
    by_cases h : p.1 = k
    · simpa [List.filter_cons, h] using ih
    · simpa [List.filter_cons, h, lookup] using ih

theorem get_user_state_delete (r : RedisState) (u : Option String) :
    get_user_state (delete_user_state r u) u = none := by
  cases r with
  | none => rfl
  | some rd =>
    show (lookup (rd.sessions.filter (fun p => p.1 ≠ uidKey u))
      (uidKey u)).map Prod.fst = none
    rw [lookup_filter_ne]
    rfl

theorem lookup_nil_of_truthy {α : Type} (l : List (String × α))
    (k : String) (hv : (lookup l k).isSome = true) : l ≠ [] := by
  intro h
  subst h
  simp [lookup] at hv

/-! ### C9: unavailable session store -/

/-- C9: when the session store backend is unavailable (`redis_client is
None`), `get_user_state` returns `None` for every user and
`set_user_state` / `delete_user_state` leave the (absent) store
unchanged, so every user is treated as IDLE and the system keeps
running. -/
theorem c9_store_unavailable_always_idle :
    ∀ (user_id : Option String) (s : Session) (ttl : Nat),
      get_user_state (none : RedisState) user_id = none ∧
      set_user_state (none : RedisState) user_id s ttl = (none : RedisState) ∧
      delete_user_state (none : RedisState) user_id = (none : RedisState) := by
  intro u s ttl
  exact ⟨rfl, rfl, rfl⟩

/-! ### C10: duplicate check with no identifiers -/

/-- C10: with both phone and wechat absent or empty (Python-falsy), the
duplicate checker returns `(False, None)` without issuing any remote
search request, for every possible remote outcome. -/
theorem c10_no_identifiers_no_search (phone wechat : Option String)
    (out : SearchOutcome)
    (hp : truthyV phone = false) (hw : truthyV wechat = false) :
    check_duplicate_record phone wechat out = ((false, none), false) := by
  simp [check_duplicate_record, hp, hw]

theorem c10_no_identifiers_no_search_witness :
    truthyV none = false ∧ truthyV (some "") = false ∧
    check_duplicate_record none (some "") SearchOutcome.raisen =
      ((false, none), false) :=
  ⟨by decide, by decide,
   c10_no_identifiers_no_search none (some "") SearchOutcome.raisen
     (by decide) (by decide)⟩

/-! ### C6: duplicate check fails open -/

/-- C6: with at least one identifier present, a failed remote search
(raised exception or non-success response) makes the duplicate checker
report `(False, None)` — "no duplicate" — rather than surfacing the
failure. -/
theorem c6_search_failure_fails_open (phone wechat : Option String)
    (out : SearchOutcome)
    (_hp : (truthyV phone || truthyV wechat) = true)
    (hf : out = SearchOutcome.raisen ∨ out = SearchOutcome.failure) :
    (check_duplicate_record phone wechat out).1 = (false, none) := by
  rcases hf with h | h <;> subst h <;>
    rcases hb : (!truthyV phone && !truthyV wechat) <;>
    simp [check_duplicate_record, hb]

theorem c6_search_failure_fails_open_witness :
    (truthyV (some "13800138000") || truthyV none) = true ∧
    (SearchOutcome.raisen = SearchOutcome.raisen ∨
      SearchOutcome.raisen = SearchOutcome.failure) ∧
    (check_duplicate_record (some "13800138000") none SearchOutcome.raisen).1 =
      (false, none) :=
  ⟨by decide, Or.inl rfl,
   c6_search_failure_fails_open (some "13800138000") none SearchOutcome.raisen
     (by decide) (Or.inl rfl)⟩

/-! ### C2: URL-verification handshake vs. the token check -/

/-- A sample environment for concrete webhook evaluations. -/
def envSample : Env :=
  { redis := none
    targetTable := "⏰客户管理表"
    listTables := ListTablesOutcome.ok []
    search := SearchOutcome.ok []
    tableFields := []
    create := CreateOutcome.ok
    nowIso := "2024-01-01T00:00:00"
    today := "2024-01-01" }

/-- A `url_verification` POST body with challenge `"abc"`. -/
def bodyChallengeAbc : WebhookBody :=
  { btype := some "url_verification"
    challenge := some "abc"
    eventType := none
    chat_type := ""
    chat_id := ""
    text := ""
    user_id := none }

/-- C2 counterexample: with a configured verification token `"secret"`
and no `X-Lark-Verification-Token` header, a `url_verification` body gets
`403 Invalid token`, not `200 {"challenge": "abc"}` — the token check
precedes the handshake. -/
theorem c2_counterexample_token_blocks_challenge :
    (webhook "secret" none bodyChallengeAbc envSample).resp =
      (403, RBody.err "Invalid token") ∧
    (webhook "secret" none bodyChallengeAbc envSample).resp ≠
      (200, RBody.challenge (some "abc")) := by
  constructor
  · rfl
  · decide

/-- C2 (amended): if no verification token is configured, or the header
matches the configured token, a `url_verification` body is answered with
`200` and its challenge echoed. -/
theorem c2_amended_challenge_echo (vtok : String) (headerTok : Option String)
    (body : WebhookBody) (env : Env)
    (hauth : vtok = "" ∨ headerTok = some vtok)
    (hty : body.btype = some "url_verification") :
    (webhook vtok headerTok body env).resp =
      (200, RBody.challenge body.challenge) := by
  rcases hauth with h | h <;> subst h <;> simp [webhook, hty]

theorem c2_amended_challenge_echo_witness :
    ((("" : String) = "" ∨ (none : Option String) = some "") ∧
      bodyChallengeAbc.btype = some "url_verification") ∧
    (webhook "" none bodyChallengeAbc envSample).resp =
      (200, RBody.challenge bodyChallengeAbc.challenge) :=
  ⟨⟨Or.inl rfl, rfl⟩,
   c2_amended_challenge_echo "" none bodyChallengeAbc envSample
     (Or.inl rfl) rfl⟩

/-! ### C8: name-based table resolution (main.py) -/

/-- C8: for a non-wiki URL with no `table` query parameter, the table
locator lists the tables and resolves to the first one named exactly
`⏰客户管理表` without raising; when no table name matches, it raises a
table-not-found error. -/
theorem c8_table_locator_by_name (u : MainUrl)
    (wiki : ApiOutcome (Option String)) (tables : List MainTable)
    (hnw : strContains u.pathname "/wiki/" = false)
    (hnt : lookup u.query "table" = none) :
    (∀ t tid, tables.find? (fun x => x.tname == some "⏰客户管理表") = some t →
      t.tid = some tid →
      main_parse_base_url u wiki (ApiOutcome.ok tables) =
        Except.ok { app_token := ((pySplitSlash u.pathname).getLast?).getD ""
                    table_id := some tid
                    view_id := lookup u.query "view" }) ∧
    (tables.find? (fun x => x.tname == some "⏰客户管理表") = none →
      main_parse_base_url u wiki (ApiOutcome.ok tables) =
        Except.error "无法从BASE_URL解析出table_id") := by
  constructor
  · intro t tid hf htid
    simp [main_parse_base_url, hnw, hnt, hf, htid]
  · intro hf
    simp [main_parse_base_url, hnw, hnt, hf]

/-- Concrete URL for the C8 witness. -/
def urlC8 : MainUrl :=
  { pathname := "/base/PzITbIyJfaB03BsqVtIcrjtznFf"
    query := [("view", "vewq1")] }

/-- Concrete table listing for the C8 witness. -/
def tablesC8 : List MainTable :=
  [{ tname := some "其他表", tid := some "tbl000" },
   { tname := some "⏰客户管理表", tid := some "tblX1" }]

theorem c8_table_locator_by_name_witness :
    (strContains urlC8.pathname "/wiki/" = false ∧
      lookup urlC8.query "table" = none ∧
      tablesC8.find? (fun x => x.tname == some "⏰客户管理表") =
        some { tname := some "⏰客户管理表", tid := some "tblX1" }) ∧
    main_parse_base_url urlC8 (ApiOutcome.ok none) (ApiOutcome.ok tablesC8) =
      Except.ok { app_token := "PzITbIyJfaB03BsqVtIcrjtznFf"
                  table_id := some "tblX1"
                  view_id := some "vewq1" } := by
  refine ⟨⟨by decide, by decide, by decide⟩, ?_⟩
  have h := (c8_table_locator_by_name urlC8 (ApiOutcome.ok none) tablesC8
    (by decide) (by decide)).1
    { tname := some "⏰客户管理表", tid := some "tblX1" } "tblX1"
    (by decide) rfl
  simpa using h

/-! ### C7: enumerated-field option translation -/

theorem lookup_append {α : Type} (l1 l2 : List (String × α)) (k : String) :
    lookup (l1 ++ l2) k =
      match lookup l1 k with
      | some v => some v
      | none => lookup l2 k := by
  induction l1 with
  | nil => rfl
  | cons p rest ih =>
    obtain ⟨k', v⟩ := p
    by_cases h : k' = k
    · simp [lookup, h]
    · simp [lookup, h, ih]

theorem enumFieldEntry_key (tf : List TableField)
    (fd : List (String × Option String)) (fn : String)
    (e : String × Option String) (he : enumFieldEntry tf fd fn = some e) :
    e.1 = fn := by
  unfold enumFieldEntry at he
  split at he
  · split at he
    · split at he <;> (cases he; rfl)
    · cases he
      rfl
  · cases he

theorem lookup_toList_enum_ne (tf : List TableField)
    (fd : List (String × Option String)) (fn k : String) (h : fn ≠ k) :
    lookup (enumFieldEntry tf fd fn).toList k = none := by
  rcases he : enumFieldEntry tf fd fn with _ | e
  · rfl
  · have hkey := enumFieldEntry_key tf fd fn e he
    obtain ⟨e1, e2⟩ := e
    simp only at hkey
    subst hkey
    simp [lookup, h]

theorem lookup_toList_enum_some (tf : List TableField)
    (fd : List (String × Option String)) (fn : String)
    (e : String × Option String) (he : enumFieldEntry tf fd fn = some e) :
    lookup (enumFieldEntry tf fd fn).toList fn = some e.2 := by
  have hkey := enumFieldEntry_key tf fd fn e he
  obtain ⟨e1, e2⟩ := e
  simp only at hkey
  subst hkey
  rw [he]
  simp [lookup]

theorem lookup_build_fields_enum (tf : List TableField)
    (fd : List (String × Option String)) (today : String) (fn : String)
    (e : String × Option String)
    (hfn : fn = "渠道" ∨ fn = "来源")
    (he : enumFieldEntry tf fd fn = some e) :
    lookup (build_fields tf fd today) fn = some e.2 := by
  have hbase : lookup ((enumFieldEntry tf fd "渠道").toList ++
      (enumFieldEntry tf fd "来源").toList ++ otherFields fd) fn = some e.2 := by
    rcases hfn with h | h <;> subst h
    · rw [lookup_append, lookup_append, lookup_toList_enum_some tf fd _ e he]
    · rw [lookup_append, lookup_append,
        lookup_toList_enum_ne tf fd "渠道" "来源" (by decide),
        lookup_toList_enum_some tf fd _ e he]
  simp only [build_fields]
  split
  · exact hbase
  · rw [lookup_append, hbase]

/-- C7: for an intake mapping containing an enumerated field (渠道 or
来源) with supplied text `v`: when the schema lookup yields a (truthy)
option id for `v`, the record writer writes that id for the field; when
no option matches, it writes the raw text `v` unchanged — no error in
either case. -/
theorem c7_enum_option_translation (tf : List TableField)
    (fd : List (String × Option String)) (today : String)
    (out : CreateOutcome) (fn v : String)
    (hfn : fn = "渠道" ∨ fn = "来源")
    (hv : lookup fd fn = some (some v)) :
    (∀ oid, get_single_select_option_id tf fn (some v) = some oid → oid ≠ "" →
      lookup (create_customer_record tf fd today out).2 fn = some (some oid)) ∧
    (get_single_select_option_id tf fn (some v) = none →
      lookup (create_customer_record tf fd today out).2 fn = some (some v)) := by
  have h2 : (create_customer_record tf fd today out).2 = build_fields tf fd today := rfl
  constructor
  · intro oid hoid hne
    have he : enumFieldEntry tf fd fn = some (fn, some oid) := by
      simp [enumFieldEntry, hv, hoid, hne]
    rw [h2]
    simpa using lookup_build_fields_enum tf fd today fn (fn, some oid) hfn he
  · intro hnone
    have he : enumFieldEntry tf fd fn = some (fn, some v) := by
      simp [enumFieldEntry, hv, hnone]
    rw [h2]
    simpa using lookup_build_fields_enum tf fd today fn (fn, some v) hfn he

/-- Schema for the C7 witness: 渠道 is a single-select whose option
"推荐" has id `opt_3`. -/
def tfC7 : List TableField :=
  [{ field_name := "渠道", ftype := 3
     options := [{ oname := some "推荐", oid := some "opt_3" }] }]

theorem c7_enum_option_translation_witness :
    ((("渠道" : String) = "渠道" ∨ ("渠道" : String) = "来源") ∧
      lookup [(("渠道" : String), some "推荐")] "渠道" = some (some "推荐") ∧
      get_single_select_option_id tfC7 "渠道" (some "推荐") = some "opt_3") ∧
    lookup (create_customer_record tfC7 [("渠道", some "推荐")]
      "2024-01-01" CreateOutcome.ok).2 "渠道" = some (some "opt_3") :=
  ⟨⟨Or.inl rfl, by decide, by decide⟩,
   (c7_enum_option_translation tfC7 [("渠道", some "推荐")] "2024-01-01"
     CreateOutcome.ok "渠道" "推荐" (Or.inl rfl) (by decide)).1
     "opt_3" (by decide) (by decide)⟩

/-! ### C4, C3, C1: the conversation state machine -/

theorem ne_nil_of_truthy_lookup (l : List (String × String)) (k : String)
    (h : truthyV (lookup l k) = true) : l ≠ [] := by
  intro hn
  subst hn
  simp [lookup, truthyV] at h

/-- C4: a group message mentioning the bot, from a user with no prior
session, produces exactly one instruction-template message to the chat
and stores a fresh `waiting_info` session for the user with TTL 300. -/
theorem c4_group_trigger_creates_session (env : Env) (chat_id text : String)
    (uid : Option String) (rd : Redis)
    (hr : env.redis = some rd)
    (_hno : lookup rd.sessions (uidKey uid) = none)
    (hat : strContains (pyStrip text) "@_user_1" = true) :
    (handle_message_event env "group" chat_id text uid).effects =
      [Effect.sendMsg chat_id instructionTemplate] ∧
    ∃ rd', (handle_message_event env "group" chat_id text uid).redis = some rd' ∧
      lookup rd'.sessions (uidKey uid) =
        some ({ chat_id := chat_id, step := "waiting_info",
                created_at := env.nowIso }, 300) := by
  have hE : handle_message_event env "group" chat_id text uid =
      { resp := (200, RBody.msg "Message processed")
        effects := [Effect.sendMsg chat_id instructionTemplate]
        redis := set_user_state env.redis uid
          { chat_id := chat_id, step := "waiting_info", created_at := env.nowIso }
          300 } := by
    simp [handle_message_event, hat]
  rw [hE, hr]
  refine ⟨rfl, _, rfl, ?_⟩
  simp [set_user_state, lookup]

/-- Concrete environment for the C4 witness: empty session store. -/
def envC4 : Env :=
  { redis := some { sessions := [], tableCache := none }
    targetTable := "⏰客户管理表"
    listTables := ListTablesOutcome.ok []
    search := SearchOutcome.ok []
    tableFields := []
    create := CreateOutcome.ok
    nowIso := "2024-01-01T00:00:00"
    today := "2024-01-01" }

theorem c4_group_trigger_creates_session_witness :
    (envC4.redis = some { sessions := [], tableCache := none } ∧
      lookup ([] : List (String × (Session × Nat))) (uidKey (some "u1")) = none ∧
      strContains (pyStrip "@_user_1 帮我录入客户") "@_user_1" = true) ∧
    ((handle_message_event envC4 "group" "oc_1" "@_user_1 帮我录入客户"
        (some "u1")).effects = [Effect.sendMsg "oc_1" instructionTemplate] ∧
      ∃ rd', (handle_message_event envC4 "group" "oc_1" "@_user_1 帮我录入客户"
          (some "u1")).redis = some rd' ∧
        lookup rd'.sessions (uidKey (some "u1")) =
          some ({ chat_id := "oc_1", step := "waiting_info",
                  created_at := envC4.nowIso }, 300)) :=
  ⟨⟨rfl, rfl, by decide⟩,
   c4_group_trigger_creates_session envC4 "oc_1" "@_user_1 帮我录入客户"
     (some "u1") { sessions := [], tableCache := none } rfl rfl (by decide)⟩

/-- C3: a p2p reply to an `AWAITING_INFO` session whose extraction is
non-empty but contains neither phone nor wechat triggers exactly one
validation-failure message and leaves the session store untouched. -/
theorem c3_validation_failure_keeps_session (env : Env)
    (chat_id text : String) (uid : Option String) (rd : Redis)
    (st : Session) (ttl : Nat)
    (hr : env.redis = some rd)
    (hs : lookup rd.sessions (uidKey uid) = some (st, ttl))
    (hstep : st.step = "waiting_info")
    (hne : parse_customer_info (pyStrip text) ≠ [])
    (hph : truthyV (lookup (parse_customer_info (pyStrip text)) "电话") = false)
    (hwc : truthyV (lookup (parse_customer_info (pyStrip text)) "微信") = false) :
    handle_message_event env "p2p" chat_id text uid =
      { resp := (200, RBody.msg "Validation failed")
        effects := [Effect.sendMsg st.chat_id "电话和微信至少需要填写一个"]
        redis := env.redis } := by
  have hg : get_user_state env.redis uid = some st := by
    rw [hr]
    simp [get_user_state, hs]
  have h1 : (("p2p" : String) == "group") = false := by decide
  have h2 : (("p2p" : String) == "p2p") = true := by decide
  simp [handle_message_event, h1, h2, hg, hstep, hne, hph, hwc]

/-- Concrete environment for the C3 witness: user `u1` awaiting info. -/
def envC3 : Env :=
  { redis := some
      { sessions := [("u1",
          ({ chat_id := "oc_9", step := "waiting_info",
             created_at := "2024-01-01T00:00:00" }, 300))]
        tableCache := none }
    targetTable := "⏰客户管理表"
    listTables := ListTablesOutcome.ok []
    search := SearchOutcome.ok []
    tableFields := []
    create := CreateOutcome.ok
    nowIso := "2024-01-01T00:05:00"
    today := "2024-01-01" }

theorem c3_validation_failure_keeps_session_witness :
    (envC3.redis = some
        { sessions := [("u1",
            ({ chat_id := "oc_9", step := "waiting_info",
               created_at := "2024-01-01T00:00:00" }, 300))]
          tableCache := none } ∧
      parse_customer_info (pyStrip "渠道：抖音") ≠ [] ∧
      truthyV (lookup (parse_customer_info (pyStrip "渠道：抖音")) "电话") = false ∧
      truthyV (lookup (parse_customer_info (pyStrip "渠道：抖音")) "微信") = false) ∧
    handle_message_event envC3 "p2p" "oc_9" "渠道：抖音" (some "u1") =
      { resp := (200, RBody.msg "Validation failed")
        effects := [Effect.sendMsg "oc_9" "电话和微信至少需要填写一个"]
        redis := envC3.redis } :=
  ⟨⟨rfl, by decide, by decide, by decide⟩,
   c3_validation_failure_keeps_session envC3 "oc_9" "渠道：抖音" (some "u1")
     { sessions := [("u1",
         ({ chat_id := "oc_9", step := "waiting_info",
            created_at := "2024-01-01T00:00:00" }, 300))]
       tableCache := none }
     { chat_id := "oc_9", step := "waiting_info",
       created_at := "2024-01-01T00:00:00" } 300
     rfl (by decide) rfl (by decide) (by decide) (by decide)⟩

/-- C1: a p2p reply to an `AWAITING_INFO` session carrying a phone or
wechat, when the duplicate search returns a match, produces exactly one
message citing the matched record id, deletes the session, and never
invokes the record writer. -/
theorem c1_duplicate_terminal (env : Env) (chat_id text : String)
    (uid : Option String) (rd : Redis) (st : Session) (ttl : Nat)
    (tid : String) (r' : RedisState) (did : String) (more : List String)
    (hr : env.redis = some rd)
    (hs : lookup rd.sessions (uidKey uid) = some (st, ttl))
    (hstep : st.step = "waiting_info")
    (hph : truthyV (lookup (parse_customer_info (pyStrip text)) "电话") = true ∨
           truthyV (lookup (parse_customer_info (pyStrip text)) "微信") = true)
    (htab : get_target_table_id env.redis env.targetTable env.listTables =
      (Except.ok tid, r'))
    (hsearch : env.search = SearchOutcome.ok (did :: more)) :
    (handle_message_event env "p2p" chat_id text uid).effects =
      [Effect.sendMsg st.chat_id ("数据与客户ID：" ++ did ++ "重复")] ∧
    get_user_state (handle_message_event env "p2p" chat_id text uid).redis uid =
      none ∧
    (∀ fs, Effect.createRecord fs ∉
      (handle_message_event env "p2p" chat_id text uid).effects) := by
  have hg : get_user_state env.redis uid = some st := by
    rw [hr]
    simp [get_user_state, hs]
  have h1 : (("p2p" : String) == "group") = false := by decide
  have h2 : (("p2p" : String) == "p2p") = true := by decide
  have hne : parse_customer_info (pyStrip text) ≠ [] := by
    rcases hph with h | h <;> exact ne_nil_of_truthy_lookup _ _ h
  have hguard : (!truthyV (lookup (parse_customer_info (pyStrip text)) "电话") &&
      !truthyV (lookup (parse_customer_info (pyStrip text)) "微信")) = false := by
    rcases hph with h | h <;> simp [h]
  have hdup : check_duplicate_record
      (lookup (parse_customer_info (pyStrip text)) "电话")
      (lookup (parse_customer_info (pyStrip text)) "微信") env.search =
      ((true, some did), true) := by
    rw [hsearch]
    simp [check_duplicate_record, hguard]
  have hE : handle_message_event env "p2p" chat_id text uid =
      { resp := (200, RBody.msg "Duplicate found")
        effects := [Effect.sendMsg st.chat_id ("数据与客户ID：" ++ did ++ "重复")]
        redis := delete_user_state r' uid } := by
    simp [handle_message_event, h1, h2, hg, hstep, hne, hguard, htab, hdup]
  rw [hE]
  refine ⟨rfl, get_user_state_delete r' uid, ?_⟩
  intro fs hmem
  simp at hmem

/-- Concrete environment for the C1 witness: user `u1` awaiting info,
cached table id, and a search that reports record `rec123`. -/
def envC1 : Env :=
  { redis := some
      { sessions := [("u1",
          ({ chat_id := "oc_9", step := "waiting_info",
             created_at := "2024-01-01T00:00:00" }, 300))]
        tableCache := some ("tblZ", 3600) }
    targetTable := "⏰客户管理表"
    listTables := ListTablesOutcome.ok []
    search := SearchOutcome.ok ["rec123"]
    tableFields := []
    create := CreateOutcome.ok
    nowIso := "2024-01-01T00:05:00"
    today := "2024-01-01" }

theorem c1_duplicate_terminal_witness :
    ((truthyV (lookup (parse_customer_info (pyStrip "电话：13800138000")) "电话") =
        true ∨
      truthyV (lookup (parse_customer_info (pyStrip "电话：13800138000")) "微信") =
        true) ∧
      get_target_table_id envC1.redis envC1.targetTable envC1.listTables =
        (Except.ok "tblZ", envC1.redis) ∧
      envC1.search = SearchOutcome.ok ("rec123" :: [])) ∧
    ((handle_message_event envC1 "p2p" "oc_9" "电话：13800138000"
        (some "u1")).effects =
      [Effect.sendMsg "oc_9" ("数据与客户ID：" ++ "rec123" ++ "重复")] ∧
    get_user_state (handle_message_event envC1 "p2p" "oc_9" "电话：13800138000"
      (some "u1")).redis (some "u1") = none ∧
    (∀ fs, Effect.createRecord fs ∉
      (handle_message_event envC1 "p2p" "oc_9" "电话：13800138000"
        (some "u1")).effects)) :=
  ⟨⟨Or.inl (by decide), rfl, rfl⟩,
   c1_duplicate_terminal envC1 "oc_9" "电话：13800138000" (some "u1")
     { sessions := [("u1",
         ({ chat_id := "oc_9", step := "waiting_info",
            created_at := "2024-01-01T00:00:00" }, 300))]
       tableCache := some ("tblZ", 3600) }
     { chat_id := "oc_9", step := "waiting_info",
       created_at := "2024-01-01T00:00:00" } 300
     "tblZ" envC1.redis "rec123" []
     rfl (by decide) rfl (Or.inl (by decide)) rfl rfl⟩

/-! ### C5: field-extractor lemmas -/

theorem startsWithL_of_chopPre (p t r : List Char)
    (h : chopPre p t = some r) : startsWithL p t = true := by
  induction p generalizing t with
  | nil => rfl
  | cons c ps ih =>
    cases t with
    | nil => cases h
    | cons d ts =>
      unfold chopPre at h
      by_cases hcd : c == d
      · rw [if_pos hcd] at h
        unfold startsWithL
        rw [hcd, ih ts h]
        rfl
      · rw [if_neg hcd] at h
        cases h

theorem startsWithL_of_tryAt (lab t cap : List Char)
    (h : tryAt lab t = some cap) : startsWithL lab t = true := by
  unfold tryAt at h
  cases hc : chopPre lab t with
  | none => rw [hc] at h; cases h
  | some after => exact startsWithL_of_chopPre lab t after hc

theorem containsL_of_startsWithL_drop (p : List Char) (l : List Char) (i : Nat)
    (h : startsWithL p (l.drop i) = true) : containsL p l = true := by
  induction l generalizing i with
  | nil =>
    rw [List.drop_nil] at h
    exact h
  | cons c ts ih =>
    cases i with
    | zero =>
      rw [List.drop_zero] at h
      unfold containsL
      rw [h]
      rfl
    | succ n =>
      rw [List.drop_succ_cons] at h
      unfold containsL
      rw [ih n h, Bool.or_true]

theorem scanFor_eq_none (lab t : List Char)
    (h : containsL lab t = false) : scanFor lab t = none := by
  induction t with
  | nil =>
    unfold scanFor
    cases htry : tryAt lab [] with
    | none => rfl
    | some cap =>
      have := startsWithL_of_tryAt lab [] cap htry
      unfold containsL at h
      rw [this] at h
      cases h
  | cons c ts ih =>
    unfold containsL at h
    rw [Bool.or_eq_false_iff] at h
    unfold scanFor
    cases htry : tryAt lab (c :: ts) with
    | none => exact ih h.2
    | some cap =>
      have := startsWithL_of_tryAt lab (c :: ts) cap htry
      rw [this] at h
      cases h.1

theorem startsWithL_append_left (p a b : List Char)
    (h : startsWithL p (a ++ b) = true) (hlen : p.length ≤ a.length) :
    startsWithL p a = true := by
  induction p generalizing a with
  | nil => rfl
  | cons c ps ih =>
    cases a with
    | nil => simp at hlen
    | cons d as =>
      rw [List.cons_append] at h
      unfold startsWithL at h ⊢
      rw [Bool.and_eq_true] at h
      rw [h.1, ih as h.2 (Nat.le_of_succ_le_succ hlen)]
      rfl

theorem drop_append_le {α : Type} (a b : List α) (i : Nat) (h : i ≤ a.length) :
    (a ++ b).drop i = a.drop i ++ b := by
  induction a generalizing i with
  | nil =>
    simp at h
    subst h
    simp
  | cons x xs ih =>
    cases i with
    | zero => simp
    | succ n =>
      rw [List.cons_append, List.drop_succ_cons, List.drop_succ_cons]
      exact ih n (Nat.le_of_succ_le_succ h)

theorem scanFor_cons (lab : List Char) (c : Char) (ts : List Char) :
    scanFor lab (c :: ts) =
      match tryAt lab (c :: ts) with
      | some cap => some cap
      | none => scanFor lab ts := rfl

theorem scanFor_append_skip (lab pre rest : List Char)
    (h : ∀ i, i < pre.length → tryAt lab (List.drop i (pre ++ rest)) = none) :
    scanFor lab (pre ++ rest) = scanFor lab rest := by
  induction pre with
  | nil => rfl
  | cons c ps ih =>
    have h0 : tryAt lab (c :: (ps ++ rest)) = none := by
      have := h 0 (Nat.succ_pos ps.length)
      rwa [List.drop_zero, List.cons_append] at this
    rw [List.cons_append, scanFor_cons, h0]
    exact ih (fun i hi => by
      have := h (i + 1) (Nat.succ_lt_succ hi)
      rwa [List.cons_append, List.drop_succ_cons] at this)

theorem dropWhile_idem (p : Char → Bool) (l : List Char) :
    (l.dropWhile p).dropWhile p = l.dropWhile p := by
  induction l with
  | nil => rfl
  | cons c ts ih =>
    by_cases hc : p c
    · rw [List.dropWhile_cons_of_pos hc, ih]
    · rw [List.dropWhile_cons_of_neg hc, List.dropWhile_cons_of_neg hc]

theorem scanFor_phone_hit (v : List Char)
    (hws : v.dropWhile pySpace ≠ [])
    (hnl : ∀ c ∈ v, c ≠ '\n') :
    scanFor ("电话".data) ('电' :: '话' :: '：' :: v) =
      some (v.dropWhile pySpace) := by
  have htry : tryAt ("电话".data) ('电' :: '话' :: '：' :: v) =
      some (v.dropWhile pySpace) := by
    show (if ('：' == ':' || '：' == '：') = true then matchTail v else none) =
      some (v.dropWhile pySpace)
    rw [if_pos (by decide)]
    unfold matchTail
    rcases hw : v.dropWhile pySpace with _ | ⟨c, cs⟩
    · exact absurd hw hws
    · have hall : ∀ x ∈ c :: cs, decide (x ≠ '\n') = true := by
        intro x hx
        rw [← hw] at hx
        exact decide_eq_true (hnl x (List.dropWhile_subset pySpace hx))
      simp only [hw]
      rw [List.takeWhile_eq_self_iff.mpr hall]
  unfold scanFor
  rw [htry]

/-- C5: a text containing a `电话：<value>` line (with a non-blank value)
and no other recognized label extracts to exactly the single-entry
mapping `电话 ↦ value.strip()`; and a text containing none of the four
label substrings extracts to the empty mapping, not an error. -/
theorem c5_field_extractor :
    (∀ pre v : String,
      strContains (pre ++ "电话：" ++ v) "渠道" = false →
      strContains (pre ++ "电话：" ++ v) "来源" = false →
      strContains (pre ++ "电话：" ++ v) "微信" = false →
      strContains pre "电话" = false →
      (∀ c ∈ v.data, c ≠ '\n') →
      v.data.dropWhile pySpace ≠ [] →
      parse_customer_info (pre ++ "电话：" ++ v) = [("电话", pyStrip v)]) ∧
    (∀ t : String,
      strContains t "渠道" = false → strContains t "来源" = false →
      strContains t "电话" = false → strContains t "微信" = false →
      parse_customer_info t = []) := by
  have hlab : ("电话" : String).data = ['电', '话'] := rfl
  have hch : (('话' : Char) == '电') = false := by decide
  constructor
  · intro pre v h1 h2 h3 hpre hnl hws
    have tdata : (pre ++ "电话：" ++ v).data =
        pre.data ++ ('电' :: '话' :: '：' :: v.data) := by
      rw [String.data_append, String.data_append]
      show (pre.data ++ ['电', '话', '：']) ++ v.data =
        pre.data ++ ('电' :: '话' :: '：' :: v.data)
      rw [List.append_assoc]
      rfl
    have htryNone : ∀ i, i < pre.data.length →
        tryAt ("电话".data)
          (List.drop i (pre.data ++ ('电' :: '话' :: '：' :: v.data))) = none := by
      intro i hi
      cases htry : tryAt ("电话".data)
          (List.drop i (pre.data ++ ('电' :: '话' :: '：' :: v.data))) with
      | none => rfl
      | some cap =>
        exfalso
        have hsw := startsWithL_of_tryAt _ _ _ htry
        rw [drop_append_le _ _ i (Nat.le_of_lt hi)] at hsw
        rcases hd : pre.data.drop i with _ | ⟨x, ds⟩
        · have h0 : (pre.data.drop i).length = 0 := by
            rw [hd]
            rfl
          rw [List.length_drop] at h0
          omega
        · rw [hd] at hsw
          cases ds with
          | nil =>
            rw [List.singleton_append, hlab] at hsw
            simp [startsWithL, hch] at hsw
          | cons y ys =>
            have h2le : ("电话".data).length ≤ (x :: y :: ys).length := by
              rw [hlab]
              simp
            have hsw2 := startsWithL_append_left _ _ _ hsw h2le
            have hcont := containsL_of_startsWithL_drop ("电话".data) pre.data i
              (by rw [hd]; exact hsw2)
            have hpre' : containsL ("电话".data) pre.data = false := hpre
            rw [hpre'] at hcont
            cases hcont
    have hscan : scanFor ("电话".data) ((pre ++ "电话：" ++ v)).data =
        some (v.data.dropWhile pySpace) := by
      rw [tdata, scanFor_append_skip _ _ _ htryNone,
        scanFor_phone_hit v.data hws hnl]
    have ePhone : reSearchLabel "电话" (pre ++ "电话：" ++ v) =
        some (String.mk (v.data.dropWhile pySpace)) := by
      unfold reSearchLabel
      rw [hscan]
      rfl
    have eC : reSearchLabel "渠道" (pre ++ "电话：" ++ v) = none := by
      unfold reSearchLabel
      rw [scanFor_eq_none _ _ h1]
      rfl
    have eS : reSearchLabel "来源" (pre ++ "电话：" ++ v) = none := by
      unfold reSearchLabel
      rw [scanFor_eq_none _ _ h2]
      rfl
    have eW : reSearchLabel "微信" (pre ++ "电话：" ++ v) = none := by
      unfold reSearchLabel
      rw [scanFor_eq_none _ _ h3]
      rfl
    have hval : pyStrip (String.mk (v.data.dropWhile pySpace)) = pyStrip v := by
      show String.mk ((((v.data.dropWhile pySpace).dropWhile
          pySpace).reverse.dropWhile pySpace).reverse) =
        String.mk (((v.data.dropWhile pySpace).reverse.dropWhile
          pySpace).reverse)
      rw [dropWhile_idem]
    simp [parse_customer_info, eC, eS, eW, ePhone, hval]
  · intro t h1 h2 h3 h4
    have eC : reSearchLabel "渠道" t = none := by
      unfold reSearchLabel
      rw [scanFor_eq_none _ _ h1]
      rfl
    have eS : reSearchLabel "来源" t = none := by
      unfold reSearchLabel
      rw [scanFor_eq_none _ _ h2]
      rfl
    have eP : reSearchLabel "电话" t = none := by
      unfold reSearchLabel
      rw [scanFor_eq_none _ _ h3]
      rfl
    have eW : reSearchLabel "微信" t = none := by
      unfold reSearchLabel
      rw [scanFor_eq_none _ _ h4]
      rfl
    simp [parse_customer_info, eC, eS, eP, eW]

theorem c5_field_extractor_witness :
    ((strContains ("客户信息\n" ++ "电话：" ++ " 13800138000 ") "渠道" = false ∧
      strContains ("客户信息\n" ++ "电话：" ++ " 13800138000 ") "来源" = false ∧
      strContains ("客户信息\n" ++ "电话：" ++ " 13800138000 ") "微信" = false ∧
      strContains "客户信息\n" "电话" = false ∧
      (" 13800138000 " : String).data.dropWhile pySpace ≠ []) ∧
      parse_customer_info ("客户信息\n" ++ "电话：" ++ " 13800138000 ") =
        [("电话", pyStrip " 13800138000 ")]) ∧
    ((strContains "你好，帮我录入" "渠道" = false ∧
      strContains "你好，帮我录入" "来源" = false ∧
      strContains "你好，帮我录入" "电话" = false ∧
      strContains "你好，帮我录入" "微信" = false) ∧
      parse_customer_info "你好，帮我录入" = []) :=
  ⟨⟨⟨by decide, by decide, by decide, by decide, by decide⟩,
    c5_field_extractor.1 "客户信息\n" " 13800138000 "
      (by decide) (by decide) (by decide) (by decide)
      (by decide) (by decide)⟩,
   ⟨⟨by decide, by decide, by decide, by decide⟩,
    c5_field_extractor.2 "你好，帮我录入"
      (by decide) (by decide) (by decide) (by decide)⟩⟩
